import Mathlib

/-!
Shallow embedding of the verification-session controller of CBMC
(`src/cbmc/cbmc_parse_options.cpp`) and of the string splitting helper
(`src/util/string_utils.cpp`), together with theorems settling the claims
about the natural-language specification of this code.

C++ strings are modelled as `List Char`; the global option map `optionst`
is modelled as a function from option names to optional values; functions
that may call `exit()` are modelled with `Except`; external collaborators
(stages of the transformation pipeline, the solver back ends, ...) whose
code is not part of this repository slice are modelled from the spec, as
marked by their doc comments.
-/

/-! ## `src/util/string_utils.cpp` -/

/-- `std::isspace` for the default C locale, as used by `strip_string` and
the `split_string` precondition. -/
def isspace (c : Char) : Bool :=
  c = ' ' || c = '\t' || c = '\n' || c = Char.ofNat 11 || c = Char.ofNat 12 || c = '\r'

/-- `strip_string` (string_utils.cpp:22): remove whitespace from either end.
The C++ computes the index of the first and of the last non-space character
and takes the substring in between; returning `""` when every character is
a space.  Dropping spaces from both ends is the direct translation. -/
def strip_string (s : List Char) : List Char :=
  let t := s.dropWhile isspace
  if t = [] then []
  else (t.reverse.dropWhile isspace).reverse

/-- The loop of `split_string` (string_utils.cpp:63-85) cuts `s` at every
occurrence of `delim`: one piece per delimiter plus the final piece after
the last delimiter (so `n` delimiters yield `n+1` raw pieces). -/
def split_pieces (delim : Char) : List Char → List (List Char)
  | [] => [[]]
  | c :: rest =>
    if c = delim then [] :: split_pieces delim rest
    else
      match split_pieces delim rest with
      | [] => [[c]]
      | p :: ps => (c :: p) :: ps

/-- `split_string` (string_utils.cpp:40-89).  `none` models the
`PRECONDITION(!std::isspace(delim) || !strip)` abort; the empty-string case
(line 51) pushes a single empty string; each raw piece is stripped when
`strip` is set and dropped when empty and `remove_empty` is set (lines
67-85); the final guard (line 87) pushes an empty string when everything
was removed. -/
def split_string (s : List Char) (delim : Char) (strip remove_empty : Bool) :
    Option (List (List Char)) :=
  if isspace delim && strip then none
  else if s = [] then some [[]]
  else
    let pieces := (split_pieces delim s).map (fun p => if strip then strip_string p else p)
    let result := if remove_empty then pieces.filter (fun p => !p.isEmpty) else pieces
    some (if result = [] then [[]] else result)

/-! ## Option values and the command line (`util/options`, `util/cmdline`) -/

/-- An `optionst` value: boolean, string, or list of strings. -/
inductive optionvalt
  | ob (v : Bool)
  | os (v : String)
  | ol (v : List String)
deriving DecidableEq

/-- The option map built by `get_command_line_options`. -/
def optionst : Type := String → Option optionvalt

def empty_optionst : optionst := fun _ => none

/-- `optionst::set_option`. -/
def optionst.set_option' (o : optionst) (n : String) (v : optionvalt) : optionst :=
  fun m => if m = n then some v else o m

/-- A conditionally applied `set_option`, modelling the pervasive
`if(cmdline.isset(...)) options.set_option(...)` pattern. -/
def optionst.set_if (o : optionst) (b : Bool) (n : String) (v : optionvalt) : optionst :=
  if b then o.set_option' n v else o

/-- `optionst::get_bool_option`. -/
def optionst.get_bool_option (o : optionst) (n : String) : Bool :=
  match o n with
  | some (.ob v) => v
  | _ => false

/-- `optionst::get_option` (string-valued; unset options read as `""`). -/
def optionst.get_option (o : optionst) (n : String) : String :=
  match o n with
  | some (.os v) => v
  | _ => ""

/-- `optionst::get_list_option`. -/
def optionst.get_list_option (o : optionst) (n : String) : List String :=
  match o n with
  | some (.ol v) => v
  | _ => []

/-- `optionst::is_set`. -/
def optionst.is_set (o : optionst) (n : String) : Bool := (o n).isSome

/-- The parsed command line (`cmdlinet`).  `config_set_fails` records the
outcome of the external `config.set(cmdline)` call
(cbmc_parse_options.cpp:130); `ui_plain` records whether
`ui_message_handler.get_ui() == uit::PLAIN` (line 265). -/
structure cmdlinet where
  flags : List String
  values : String → String
  valuelists : String → List String
  args : List String
  ui_plain : Bool
  config_set_fails : Bool

/-- `cmdlinet::isset`. -/
def cmdlinet.isset (c : cmdlinet) (n : String) : Bool := c.flags.contains n

/-- `cmdlinet::get_value`. -/
def cmdlinet.get_value (c : cmdlinet) (n : String) : String := c.values n

/-- `cmdlinet::get_values`. -/
def cmdlinet.get_values (c : cmdlinet) (n : String) : List String := c.valuelists n

/-! ## Exit codes and configuration errors -/

/-- Process exit statuses (`util/exit_codes.h`, one constructor per distinct
`CPROVER_EXIT_*` status used by this file; the verification statuses follow
the spec's requirement that the `Outcome → status` map is total with
distinct codes per error kind). -/
inductive exit_codet
  | success
  | usage_error
  | incorrect_task
  | internal_error
  | set_properties_failed
  | preprocessor_test_failed
  | verification_fail
  | verification_inconclusive
  | verification_error
deriving DecidableEq

/-- The distinct reasons for which `get_command_line_options` calls
`exit(CPROVER_EXIT_USAGE_ERROR)`: failure of the external `config.set`,
a pair of mutually exclusive options (the error message names both, e.g.
"--cover and --unwinding-assertions must not be given together"), or a
removed option (`--slice-by-trace`, `--smt1`). -/
inductive config_errort
  | bad_cmdline
  | conflict (a b : String)
  | removed (name : String)
deriving DecidableEq

/-- How `get_command_line_options` can terminate the process:
`usage_error` models `exit(CPROVER_EXIT_USAGE_ERROR)`, `success_exit`
models the `--show-symex-strategies` branch which exits with
`CPROVER_EXIT_SUCCESS` (line 189-193). -/
inductive cmdline_exitt
  | usage_error (e : config_errort)
  | success_exit
deriving DecidableEq

/-! ## `cbmc_parse_optionst::set_default_options` (lines 110-126) -/

def set_default_options (o : optionst) : optionst :=
  let o := o.set_option' "assertions" (.ob true)
  let o := o.set_option' "assumptions" (.ob true)
  let o := o.set_option' "built-in-assertions" (.ob true)
  let o := o.set_option' "pretty-names" (.ob true)
  let o := o.set_option' "propagation" (.ob true)
  let o := o.set_option' "sat-preprocessor" (.ob true)
  let o := o.set_option' "simple-slice" (.ob true)
  let o := o.set_option' "simplify" (.ob true)
  let o := o.set_option' "simplify-if" (.ob true)
  let o := o.set_option' "show-goto-symex-steps" (.ob false)
  o.set_option' "arrays-uf" (.os "auto")

/-! ## `cbmc_parse_optionst::get_command_line_options` (lines 128-479)

Each `if(cmdline.isset(X)) options.set_option(...)` becomes a `set_if`;
each `exit(...)` becomes an `Except.error`.  External helpers that set
only options never read by the code modelled here
(`parse_c_object_factory_options`, `PARSE_OPTIONS_GOTO_CHECK`,
`PARSE_OPTIONS_GOTO_TRACE`) are omitted with a comment at their source
position; `parse_path_strategy_options` and `parse_cover_options` are
modelled from the spec where noted, since their effect ("paths" and
"cover") is read by `doit`.

The `exit()` checks of the source are interleaved with the option
assignments, but every check tests only the command line (never the
options built so far) and the assignments have no effect other than on
the option map; `get_command_line_options` therefore performs the checks
of lines 130, 142, 157, 169, 177, 189, 283 and 374 in source order and,
when none fires, returns the option map assembled by
`assembled_options`, which lists every assignment in source order. -/

/-- The option map built by the non-exiting path of
`get_command_line_options` (every `set_option` of lines 136-478 in source
order). -/
def assembled_options (c : cmdlinet) : optionst :=
  let o := set_default_options empty_optionst
  -- line 137: parse_c_object_factory_options (external; object-factory options only)
  let o := o.set_if (c.isset "function") "function" (.os (c.get_value "function"))
  let o := o.set_if (c.isset "max-field-sensitivity-array-size")
    "max-field-sensitivity-array-size" (.os (c.get_value "max-field-sensitivity-array-size"))
  let o := o.set_if (c.isset "no-array-field-sensitivity") "no-array-field-sensitivity" (.ob true)
  let o := o.set_if (c.isset "full-slice") "full-slice" (.ob true)
  -- line 195: parse_path_strategy_options (goto-symex/path_storage.cpp, outside this
  -- repository slice).  Modelled from the spec: it enables the single-path
  -- exploration axis ("paths") when requested on the command line.
  let o := o.set_if (c.isset "paths") "paths" (.ob true)
  let o := o.set_if (c.isset "program-only") "program-only" (.ob true)
  let o := o.set_if (c.isset "show-vcc") "show-vcc" (.ob true)
  -- line 203: parse_cover_options (goto-instrument/cover.cpp, outside this repository
  -- slice).  Modelled from the spec: it records the requested coverage criteria
  -- under the "cover" option (and only coverage-related options).
  let o := o.set_if (c.isset "cover") "cover" (.ol (c.get_values "cover"))
  let o := o.set_if (c.isset "mm") "mm" (.os (c.get_value "mm"))
  -- lines 209-234: --c89/--c99/--c11/--cpp98/--cpp03/--cpp11 mutate the language
  -- front-end `config`, not the options map
  let o := o.set_if (c.isset "symex-complexity-limit") "symex-complexity-limit"
    (.os (c.get_value "symex-complexity-limit"))
  let o := o.set_if (c.isset "symex-complexity-failed-child-loops-limit")
    "symex-complexity-failed-child-loops-limit"
    (.os (c.get_value "symex-complexity-failed-child-loops-limit"))
  let o := o.set_if (c.isset "property") "property" (.ol (c.get_values "property"))
  let o := o.set_if (c.isset "drop-unused-functions") "drop-unused-functions" (.ob true)
  let o := o.set_if (c.isset "string-abstraction") "string-abstraction" (.ob true)
  let o := o.set_if (c.isset "reachability-slice-fb") "reachability-slice-fb" (.ob true)
  let o := o.set_if (c.isset "reachability-slice") "reachability-slice" (.ob true)
  let o := o.set_if (c.isset "nondet-static") "nondet-static" (.ob true)
  let o := o.set_if (c.isset "no-simplify") "simplify" (.ob false)
  -- line 257: --stop-on-fail, --dimacs or --outfile force stop-on-fail
  let o := o.set_if (c.isset "stop-on-fail" || c.isset "dimacs" || c.isset "outfile")
    "stop-on-fail" (.ob true)
  -- line 262: trace capture
  let o := o.set_if (c.isset "trace" || c.isset "compact-trace" || c.isset "stack-trace" ||
      c.isset "stop-on-fail" || (!c.ui_plain && !c.isset "cover"))
    "trace" (.ob true)
  let o := o.set_if (c.isset "localize-faults") "localize-faults" (.ob true)
  let o := o.set_if (c.isset "unwind") "unwind" (.os (c.get_value "unwind"))
  let o := o.set_if (c.isset "depth") "depth" (.os (c.get_value "depth"))
  let o := o.set_if (c.isset "debug-level") "debug-level" (.os (c.get_value "debug-level"))
  let o := o.set_if (c.isset "unwindset") "unwindset" (.os (c.get_value "unwindset"))
  let o := o.set_if (c.isset "no-propagation") "propagation" (.ob false)
  let o := o.set_option' "self-loops-to-assumptions"
    (.ob (!c.isset "no-self-loops-to-assumptions"))
  -- line 302: PARSE_OPTIONS_GOTO_CHECK (external macro; goto-check options only)
  let o := o.set_if (c.isset "no-assertions") "assertions" (.ob false)
  let o := o.set_if (c.isset "no-assumptions") "assumptions" (.ob false)
  let o := o.set_if (c.isset "error-label") "error-label" (.ol (c.get_values "error-label"))
  -- line 317: --unwinding-assertions also forces exploring all paths
  let o := o.set_if (c.isset "unwinding-assertions") "unwinding-assertions" (.ob true)
  let o := o.set_if (c.isset "unwinding-assertions") "paths-symex-explore-all" (.ob true)
  let o := o.set_if (c.isset "partial-loops") "partial-loops" (.ob true)
  let o := o.set_if (c.isset "slice-formula") "slice-formula" (.ob true)
  let o := o.set_if (c.isset "no-simplify-if") "simplify-if" (.ob false)
  -- line 334: arrays-uf-always wins over arrays-uf-never (else-if)
  let o := o.set_if (c.isset "arrays-uf-always") "arrays-uf" (.os "always")
  let o := o.set_if (!c.isset "arrays-uf-always" && c.isset "arrays-uf-never")
    "arrays-uf" (.os "never")
  let o := o.set_if (c.isset "dimacs") "dimacs" (.ob true)
  let o := o.set_if (c.isset "refine-arrays") "refine" (.ob true)
  let o := o.set_if (c.isset "refine-arrays") "refine-arrays" (.ob true)
  let o := o.set_if (c.isset "refine-arithmetic") "refine" (.ob true)
  let o := o.set_if (c.isset "refine-arithmetic") "refine-arithmetic" (.ob true)
  let o := o.set_if (c.isset "refine") "refine" (.ob true)
  let o := o.set_if (c.isset "refine") "refine-arrays" (.ob true)
  let o := o.set_if (c.isset "refine") "refine-arithmetic" (.ob true)
  let o := o.set_if (c.isset "refine-strings") "refine-strings" (.ob true)
  let o := o.set_if (c.isset "refine-strings") "string-printable" (.ob (c.isset "string-printable"))
  let o := o.set_if (c.isset "max-node-refinement") "max-node-refinement"
    (.os (c.get_value "max-node-refinement"))
  let o := o.set_if (c.isset "smt2") "smt2" (.ob true)
  let o := o.set_if (c.isset "fpa") "fpa" (.ob true)
  -- lines 386-422: solver_set becomes true exactly when one of the solver
  -- flags fires (each branch executes `solver_set=true`)
  let solver_set := c.isset "boolector" || c.isset "cprover-smt2" || c.isset "mathsat" ||
    c.isset "cvc4" || c.isset "yices" || c.isset "z3"
  let o := o.set_if (c.isset "boolector") "boolector" (.ob true)
  let o := o.set_if (c.isset "boolector") "smt2" (.ob true)
  let o := o.set_if (c.isset "cprover-smt2") "cprover-smt2" (.ob true)
  let o := o.set_if (c.isset "cprover-smt2") "smt2" (.ob true)
  let o := o.set_if (c.isset "mathsat") "mathsat" (.ob true)
  let o := o.set_if (c.isset "mathsat") "smt2" (.ob true)
  let o := o.set_if (c.isset "cvc4") "cvc4" (.ob true)
  let o := o.set_if (c.isset "cvc4") "smt2" (.ob true)
  let o := o.set_if (c.isset "yices") "yices" (.ob true)
  let o := o.set_if (c.isset "yices") "smt2" (.ob true)
  let o := o.set_if (c.isset "z3") "z3" (.ob true)
  let o := o.set_if (c.isset "z3") "smt2" (.ob true)
  -- lines 424-436: SMT encoding requested with no solver chosen: standard
  -- compliant SMT-LIB with an outfile, the default solver (Z3) otherwise
  let o := o.set_if (c.isset "smt2" && !solver_set && c.isset "outfile") "generic" (.ob true)
  let o := o.set_if (c.isset "smt2" && !solver_set && !c.isset "outfile") "z3" (.ob true)
  let o := o.set_if (c.isset "beautify") "beautify" (.ob true)
  let o := o.set_if (c.isset "no-sat-preprocessor") "sat-preprocessor" (.ob false)
  let o := o.set_if (c.isset "no-pretty-names") "pretty-names" (.ob false)
  let o := o.set_if (c.isset "outfile") "outfile" (.os (c.get_value "outfile"))
  -- lines 450-455: --graphml-witness also forces stop-on-fail and trace
  let o := o.set_if (c.isset "graphml-witness") "graphml-witness"
    (.os (c.get_value "graphml-witness"))
  let o := o.set_if (c.isset "graphml-witness") "stop-on-fail" (.ob true)
  let o := o.set_if (c.isset "graphml-witness") "trace" (.ob true)
  let o := o.set_if (c.isset "symex-coverage-report") "symex-coverage-report"
    (.os (c.get_value "symex-coverage-report"))
  let o := o.set_if (c.isset "symex-coverage-report") "paths-symex-explore-all" (.ob true)
  let o := o.set_if (c.isset "validate-ssa-equation") "validate-ssa-equation" (.ob true)
  let o := o.set_if (c.isset "validate-goto-model") "validate-goto-model" (.ob true)
  let o := o.set_if (c.isset "show-goto-symex-steps") "show-goto-symex-steps" (.ob true)
  -- line 478: PARSE_OPTIONS_GOTO_TRACE (external macro; trace-format options only)
  o

def get_command_line_options (c : cmdlinet) : Except cmdline_exitt optionst :=
  -- line 130: config.set(cmdline) (external); on failure, usage error exit
  if c.config_set_fails then .error (.usage_error .bad_cmdline) else
  -- line 142: mutual exclusion of --cover and --unwinding-assertions
  if c.isset "cover" && c.isset "unwinding-assertions" then
    .error (.usage_error (.conflict "cover" "unwinding-assertions")) else
  -- line 157: mutual exclusion (checked inside the no-array-field-sensitivity branch)
  if c.isset "no-array-field-sensitivity" && c.isset "max-field-sensitivity-array-size" then
    .error (.usage_error (.conflict "no-array-field-sensitivity" "max-field-sensitivity-array-size")) else
  -- line 169: mutual exclusion of --partial-loops and --unwinding-assertions
  if c.isset "partial-loops" && c.isset "unwinding-assertions" then
    .error (.usage_error (.conflict "partial-loops" "unwinding-assertions")) else
  -- line 177: mutual exclusion of the two reachability-slice variants
  if c.isset "reachability-slice" && c.isset "reachability-slice-fb" then
    .error (.usage_error (.conflict "reachability-slice" "reachability-slice-fb")) else
  -- line 189: --show-symex-strategies prints and exits with SUCCESS
  if c.isset "show-symex-strategies" then .error .success_exit else
  -- line 283: --slice-by-trace has been removed
  if c.isset "slice-by-trace" then .error (.usage_error (.removed "slice-by-trace")) else
  -- line 374: --smt1 is no longer supported
  if c.isset "smt1" then .error (.usage_error (.removed "smt1")) else
  .ok (assembled_options c)

/-! ## Program representation

The pipeline stages themselves are external collaborators (their code is
not part of this repository slice); following the spec, the program
representation is abstracted to the part the claims are about: its set of
named checkable properties, each carrying the stable identifier assigned
by property labeling (`none` before labeling). -/

/-- A checkable property of the goto model: `tag` abstracts the assertion
itself, `ident` is the stable identifier assigned by `label_properties`. -/
structure propertyt where
  ident : Option Nat
  tag : String
deriving DecidableEq

/-- The intermediate program representation (`goto_modelt`), abstracted to
its property set. -/
structure goto_modelt where
  props : List propertyt
deriving DecidableEq

/-- The verification outcome (`resultt` of goto-checker/properties.h). -/
inductive resultt
  | UNKNOWN
  | PASS
  | FAIL
  | ERRORt
deriving DecidableEq

/-- The strategy (verifier template instantiation) chosen by the cascade in
`doit` (lines 659-713), one constructor per instantiated verifier class. -/
inductive strategy_idt
  | stop_on_fail_single
  | stop_on_fail_multi
  | stop_on_fail_multi_fault_loc
  | all_properties_single_trace
  | all_properties_multi_trace
  | all_properties_multi_fault_loc
deriving DecidableEq

/-- The session modes of the spec's `ModeSelector`, in the priority order in
which `doit`/`get_goto_program` test for them. -/
inductive session_modet
  | ShowVersion
  | PreprocessorTest
  | Preprocess
  | ShowParseTree
  | ShowSymbolTable
  | ShowLoops
  | ShowGotoFunctions
  | ShowProperties
  | ProgramOnly
  | FormulaExport
  | Coverage
  | StandardVerify
deriving DecidableEq

/-- Observable events of a session, used to state ordering properties:
construction of the program representation, execution of a pipeline stage,
emission of an inspection-mode artifact, the coverage run, and the run of
the strategy selected by the cascade of lines 659-713. -/
inductive eventt
  | built_representation
  | stage (name : String)
  | artifact (m : session_modet)
  | ran_coverage
  | ran_strategy (s : strategy_idt)
deriving DecidableEq

/-- External behaviour of the collaborators called by the session: results
of the external calls and, for the pipeline stages that are external to
this repository slice, their effect on the property set (modelled from the
spec, see the doc comment of each stage below). -/
structure environmentt where
  preprocessor_test_fails : Bool
  preprocess_ok : Bool
  parse_tree_ok : Bool
  is_goto_binary : Bool
  build_model : goto_modelt
  precondition_props : List String
  check_props : List String
  nondet_props : List String
  cover_props : List String
  cover_instrumentation_fails : Bool
  reach_keep : Option (List String) → Bool → propertyt → Bool
  full_keep : Option (List String) → propertyt → Bool
  verification_result : resultt

/-! ## Pipeline stages (`cbmc_parse_optionst::process_goto_program`, lines 816-951)

Every stage is an external pure mutator (spec section 6); only its effect on
the property set is modelled.  Stages that do not touch properties are the
identity. -/

/-- Modelled from the spec: `remove_asm` (assembler/remove_asm.h, outside this
repository slice), stage 1; removes inline assembly, does not alter the
property set. -/
def remove_asm (gm : goto_modelt) : goto_modelt := gm

/-- Modelled from the spec: `link_to_library` (goto-programs/link_to_library.h,
outside this repository slice), stage 2, called once per runtime-support
library; does not alter the property set. -/
def link_to_library (gm : goto_modelt) : goto_modelt := gm

/-- Modelled from the spec: `string_instrumentation`
(goto-programs/string_instrumentation.h, outside this repository slice),
stage 3; does not alter the property set. -/
def string_instrumentation (gm : goto_modelt) : goto_modelt := gm

/-- Modelled from the spec: `remove_function_pointers`
(goto-programs/remove_function_pointers.h, outside this repository slice),
stage 4; does not alter the property set. -/
def remove_function_pointers (gm : goto_modelt) : goto_modelt := gm

/-- Modelled from the spec: `mm_io` (goto-programs/mm_io.h, outside this
repository slice), stage 5; does not alter the property set. -/
def mm_io (gm : goto_modelt) : goto_modelt := gm

/-- Modelled from the spec: `instrument_preconditions`
(goto-programs/instrument_preconditions.h, outside this repository slice),
stage 6; instruments library-function preconditions as checkable
assertions, i.e. appends new, not yet labeled properties. -/
def instrument_preconditions (env : environmentt) (gm : goto_modelt) : goto_modelt :=
  { props := gm.props ++ env.precondition_props.map (fun t => ⟨none, t⟩) }

/-- Modelled from the spec: `remove_returns`, `remove_vector`,
`remove_complex`, `rewrite_union` (goto-programs, outside this repository
slice), stage 7; none alters the property set. -/
def remove_returns (gm : goto_modelt) : goto_modelt := gm

def remove_vector (gm : goto_modelt) : goto_modelt := gm

def remove_complex (gm : goto_modelt) : goto_modelt := gm

def rewrite_union (gm : goto_modelt) : goto_modelt := gm

/-- Modelled from the spec: `goto_check` (analyses/goto_check.h, outside this
repository slice), stage 8; inserts the generic safety checks selected by
the options as new, not yet labeled properties (`env.check_props` abstracts
the option-dependent set of inserted checks). -/
def goto_check (_o : optionst) (env : environmentt) (gm : goto_modelt) : goto_modelt :=
  { props := gm.props ++ env.check_props.map (fun t => ⟨none, t⟩) }

/-- Modelled from the spec: `adjust_float_expressions`
(goto-programs/adjust_float_expressions.h, outside this repository slice),
stage 9; does not alter the property set. -/
def adjust_float_expressions (gm : goto_modelt) : goto_modelt := gm

/-- Modelled from the spec: `nondet_static` (goto-instrument/nondet_static.h,
outside this repository slice), stage 10; the spec counts it among the
assertion-introducing stages, so it appends new, not yet labeled
properties. -/
def nondet_static (env : environmentt) (gm : goto_modelt) : goto_modelt :=
  { props := gm.props ++ env.nondet_props.map (fun t => ⟨none, t⟩) }

/-- Modelled from the spec: `string_abstraction`
(goto-programs/string_abstraction.h, outside this repository slice),
stage 11; does not alter the property set. -/
def string_abstraction (gm : goto_modelt) : goto_modelt := gm

/-- Modelled from the spec: `add_failed_symbols`
(pointer-analysis/add_failed_symbols.h, outside this repository slice),
stage 12; does not alter the property set. -/
def add_failed_symbols (gm : goto_modelt) : goto_modelt := gm

/-- Modelled from the spec: `goto_functions.update()`, stage 13 (recompute
derived indices); does not alter the property set. -/
def update_goto_functions (gm : goto_modelt) : goto_modelt := gm

/-- Modelled from the spec: `goto_functions.compute_loop_numbers()`,
stage 13; does not alter the property set. -/
def compute_loop_numbers (gm : goto_modelt) : goto_modelt := gm

/-- Modelled from the spec: `remove_unused_functions`
(goto-programs/remove_unused_functions.h, outside this repository slice),
stage 14; does not alter the property set. -/
def remove_unused_functions (gm : goto_modelt) : goto_modelt := gm

/-- Modelled from the spec: `remove_skip` (goto-programs/remove_skip.h,
outside this repository slice), stages 15 and 20; removes no-op
control-flow nodes, does not alter the property set. -/
def remove_skip (gm : goto_modelt) : goto_modelt := gm

/-- Modelled from the spec: `instrument_cover_goals` (goto-instrument/cover.h,
outside this repository slice), stage 16; on success appends the coverage
goals as new, not yet labeled properties; it is the one stage that can
fail (unknown criterion or malformed specification), which the caller
observes as a boolean (modelled by `env.cover_instrumentation_fails`). -/
def instrument_cover_goals (env : environmentt) (gm : goto_modelt) : goto_modelt :=
  { props := gm.props ++ env.cover_props.map (fun t => ⟨none, t⟩) }

/-- Auxiliary recursion of `label_properties`: assign consecutive stable
identifiers to the properties. -/
def label_props : Nat → List propertyt → List propertyt
  | _, [] => []
  | i, p :: ps => { p with ident := some i } :: label_props (i + 1) ps

/-- Modelled from the spec: `label_properties` (goto-programs/set_properties.h,
outside this repository slice), stage 17; labels every checkable property
with a stable identifier. -/
def label_properties (gm : goto_modelt) : goto_modelt :=
  { props := label_props 0 gm.props }

/-- Modelled from the spec: `reachability_slicer`
(goto-instrument/reachability_slicer.h, outside this repository slice),
stages 18 (with `fb` selecting the forwards-backwards variant and `props?`
the optional named property subset); removes program elements that cannot
affect the properties under analysis, i.e. keeps a subset of the
properties, never changing the identifier of a kept property. -/
def reachability_slicer (env : environmentt) (gm : goto_modelt)
    (props? : Option (List String)) (fb : Bool) : goto_modelt :=
  { props := gm.props.filter (env.reach_keep props? fb) }

/-- Modelled from the spec: `property_slicer` (goto-instrument/full_slicer.h,
outside this repository slice), stage 19 scoped to a named property subset;
keeps a subset of the properties, never changing the identifier of a kept
property. -/
def property_slicer (env : environmentt) (gm : goto_modelt)
    (props : List String) : goto_modelt :=
  { props := gm.props.filter (env.full_keep (some props)) }

/-- Modelled from the spec: `full_slicer` (goto-instrument/full_slicer.h,
outside this repository slice), stage 19 unscoped; keeps a subset of the
properties, never changing the identifier of a kept property. -/
def full_slicer (env : environmentt) (gm : goto_modelt) : goto_modelt :=
  { props := gm.props.filter (env.full_keep none) }

/-- Apply one pipeline stage to the model, recording its event. -/
def run_stage (name : String) (f : goto_modelt → goto_modelt)
    (st : goto_modelt × List eventt) : goto_modelt × List eventt :=
  (f st.1, st.2 ++ [.stage name])

/-- Conditionally apply one pipeline stage, modelling the
`if(options.get_bool_option(X)) stage(...)` pattern. -/
def run_stage_if (b : Bool) (name : String) (f : goto_modelt → goto_modelt)
    (st : goto_modelt × List eventt) : goto_modelt × List eventt :=
  if b then run_stage name f st else st

/-! ## `cbmc_parse_optionst::process_goto_program` (lines 816-951)

The single C++ function is written as `pipeline_up_to_cover` (the stages up
to and including coverage instrumentation, the one early return point),
followed by property labeling, followed by `pipeline_after_label`; their
composition `process_goto_program` is the faithful sequence of source
lines 821-950.  `.error` models `return true`, which the caller maps to
`CPROVER_EXIT_INTERNAL_ERROR`. -/

def pipeline_up_to_cover (o : optionst) (env : environmentt) (gm0 : goto_modelt) :
    Except (List eventt) (goto_modelt × List eventt) :=
  -- line 823: remove inline assembler (before adding the library)
  let st := run_stage "remove_asm" remove_asm (gm0, [])
  -- lines 828-831: link the two runtime-support libraries
  let st := run_stage "link_to_library_cpp" link_to_library st
  let st := run_stage "link_to_library_c" link_to_library st
  -- line 833
  let st := run_stage_if (o.get_bool_option "string-abstraction")
    "string_instrumentation" string_instrumentation st
  -- line 839
  let st := run_stage "remove_function_pointers" remove_function_pointers st
  -- line 844
  let st := run_stage "mm_io" mm_io st
  -- line 847
  let st := run_stage "instrument_preconditions" (instrument_preconditions env) st
  -- lines 850-853
  let st := run_stage "remove_returns" remove_returns st
  let st := run_stage "remove_vector" remove_vector st
  let st := run_stage "remove_complex" remove_complex st
  let st := run_stage "rewrite_union" rewrite_union st
  -- line 857: generic property instrumentation
  let st := run_stage "goto_check" (goto_check o env) st
  -- line 860
  let st := run_stage "adjust_float_expressions" adjust_float_expressions st
  -- line 864
  let st := run_stage_if (o.get_bool_option "nondet-static")
    "nondet_static" (nondet_static env) st
  -- line 872
  let st := run_stage_if (o.get_bool_option "string-abstraction")
    "string_abstraction" string_abstraction st
  -- line 880
  let st := run_stage "add_failed_symbols" add_failed_symbols st
  -- lines 883-886
  let st := run_stage "update_goto_functions" update_goto_functions st
  let st := run_stage "compute_loop_numbers" compute_loop_numbers st
  -- line 888
  let st := run_stage_if (o.get_bool_option "drop-unused-functions")
    "remove_unused_functions" remove_unused_functions st
  -- line 897: first skip removal
  let st := run_stage "remove_skip" remove_skip st
  -- lines 900-907: coverage instrumentation; `return true` on failure
  if o.is_set "cover" then
    if env.cover_instrumentation_fails then
      .error (st.2 ++ [.stage "instrument_cover_goals"])
    else
      .ok (run_stage "instrument_cover_goals" (instrument_cover_goals env) st)
  else
    .ok st

def pipeline_after_label (o : optionst) (env : environmentt)
    (st : goto_modelt × List eventt) : goto_modelt × List eventt :=
  -- lines 917-926: forwards-backwards reachability slice
  let st := run_stage_if (o.get_bool_option "reachability-slice-fb")
    "reachability_slicer_fb"
    (fun gm => reachability_slicer env gm
      (if o.is_set "property" then some (o.get_list_option "property") else none) true) st
  -- lines 928-935: plain reachability slice
  let st := run_stage_if (o.get_bool_option "reachability-slice")
    "reachability_slicer"
    (fun gm => reachability_slicer env gm
      (if o.is_set "property" then some (o.get_list_option "property") else none) false) st
  -- lines 938-945: full slice
  let st := run_stage_if (o.get_bool_option "full-slice")
    "full_slicer"
    (fun gm =>
      if o.is_set "property" then property_slicer env gm (o.get_list_option "property")
      else full_slicer env gm) st
  -- line 948: remove skips introduced since coverage instrumentation
  run_stage "remove_skip" remove_skip st

def process_goto_program (o : optionst) (env : environmentt) (gm0 : goto_modelt) :
    Except (List eventt) (goto_modelt × List eventt) :=
  match pipeline_up_to_cover o env gm0 with
  | .error evs => .error evs
  | .ok st =>
    -- line 914: label the assertions (after adding assertions, before slicing)
    .ok (pipeline_after_label o env (run_stage "label_properties" label_properties st))

/-! ## Strategy selection (`doit`, lines 659-713) -/

/-- The cascade of lines 661-713 choosing the verifier template
instantiation; `none` models the final `UNREACHABLE`. -/
def select_verifier (o : optionst) : Option strategy_idt :=
  if o.get_bool_option "stop-on-fail" && o.get_bool_option "paths" then
    some .stop_on_fail_single
  else if o.get_bool_option "stop-on-fail" && !o.get_bool_option "paths" then
    if o.get_bool_option "localize-faults" then
      some .stop_on_fail_multi_fault_loc
    else
      some .stop_on_fail_multi
  else if !o.get_bool_option "stop-on-fail" && o.get_bool_option "paths" then
    some .all_properties_single_trace
  else if !o.get_bool_option "stop-on-fail" && !o.get_bool_option "paths" then
    if o.get_bool_option "localize-faults" then
      some .all_properties_multi_fault_loc
    else
      some .all_properties_multi_trace
  else
    none

/-- The spec's six-row decision table (section 4.4) over
`(stop_on_fail, path_exploration, fault_localization)`; written from the
SPEC's words, to be compared with `select_verifier`, which is written from
the code.  Per the spec, the two `single`-path combinations with
`fault_localization = true` have no table entry. -/
def strategy_table (stop_on_fail single_path fault_localization : Bool) :
    Option strategy_idt :=
  match stop_on_fail, single_path, fault_localization with
  | true, true, false => some .stop_on_fail_single
  | true, false, false => some .stop_on_fail_multi
  | true, false, true => some .stop_on_fail_multi_fault_loc
  | false, true, false => some .all_properties_single_trace
  | false, false, false => some .all_properties_multi_trace
  | false, false, true => some .all_properties_multi_fault_loc
  | _, true, true => none

/-- Modelled from the spec: `result_to_exit_code` (goto-checker/bmc_util.h,
outside this repository slice); the total map from the verification outcome
to the process exit status, with a distinct status per outcome. -/
def result_to_exit_code : resultt → exit_codet
  | .PASS => .success
  | .FAIL => .verification_fail
  | .UNKNOWN => .verification_inconclusive
  | .ERRORt => .verification_error

/-! ## `cbmc_parse_optionst::get_goto_program` (lines 732-781) and `doit` (lines 482-719) -/

/-- `cbmc_parse_optionst::set_properties` (lines 721-730): restricts the
analysis to the named properties via the external `::set_properties` and
always returns `false` (no failure). -/
def set_properties (_c : cmdlinet) (_gm : goto_modelt) : Bool := false

/-- `get_goto_program`: build the representation (external
`initialize_goto_model`, whose result is `env.build_model`), handle the
symbol-table dump, run the transformation pipeline, handle the loop-id and
goto-function dumps.  `some code` models an early `return code`; `none`
models `return -1` (continue), in which case the transformed model is the
second component. -/
def get_goto_program (c : cmdlinet) (o : optionst) (env : environmentt) :
    Option exit_codet × goto_modelt × List eventt :=
  -- line 739: no input program is a fatal error
  if c.args = [] then (some .incorrect_task, env.build_model, [])
  else
    -- line 745: initialize_goto_model (external representation builder)
    let evs := [eventt.built_representation]
    -- line 747
    if c.isset "show-symbol-table" then
      (some .success, env.build_model, evs ++ [.artifact .ShowSymbolTable])
    else
      -- line 753: pipeline failure maps to CPROVER_EXIT_INTERNAL_ERROR
      match process_goto_program o env env.build_model with
      | .error pevs => (some .internal_error, env.build_model, evs ++ pevs)
      | .ok (gm, pevs) =>
        let evs := evs ++ pevs
        -- line 756: optional goto_model.validate() (external, no event)
        -- line 762
        if c.isset "show-loops" then
          (some .success, gm, evs ++ [.artifact .ShowLoops])
        -- line 769
        else if c.isset "show-goto-functions" || c.isset "list-goto-functions" then
          (some .success, gm, evs ++ [.artifact .ShowGotoFunctions])
        else
          (none, gm, evs)

/-- `cbmc_parse_optionst::doit` (lines 482-719): the session controller.
Returns the process exit status and the observable events of the session.
The branches that produce an artifact by running a symex-only or formula
exporting checker (`program-only`/`show-vcc`, lines 607-625, and
`dimacs`/`outfile`, lines 627-644) record an `artifact` event: the spec
treats them as the `ProgramOnly` and `FormulaExport` inspection modes that
never reach strategy selection.  The `UNREACHABLE` of line 712 is an
immediately aborting programmer-error assertion, modelled as an
internal-error exit. -/
def doit (c : cmdlinet) (env : environmentt) : exit_codet × List eventt :=
  -- line 484
  if c.isset "version" then (.success, [.artifact .ShowVersion])
  else
    -- line 495
    match get_command_line_options c with
    | .error .success_exit => (.success, [])
    | .error (.usage_error _) => (.usage_error, [])
    | .ok o =>
      -- line 511: unsupported legacy hardware-module flags
      if c.isset "module" || c.isset "gen-interface" then (.usage_error, [])
      -- line 530
      else if c.isset "test-preprocessor" then
        ((if env.preprocessor_test_fails then .preprocessor_test_failed else .success),
          [.artifact .PreprocessorTest])
      -- line 535: preprocessing() reports errors but doit returns SUCCESS
      else if c.isset "preprocess" then
        (.success, if env.preprocess_ok then [.artifact .Preprocess] else [])
      -- line 541: requires exactly one non-binary source file; the failures of
      -- opening, language detection and parsing are folded into env.parse_tree_ok
      else if c.isset "show-parse-tree" then
        if c.args.length ≠ 1 || env.is_goto_binary then (.incorrect_task, [])
        else if env.parse_tree_ok then (.success, [.artifact .ShowParseTree])
        else (.incorrect_task, [])
      else
        -- line 591
        match get_goto_program c o env with
        | (some code, _, evs) => (code, evs)
        | (none, gm, evs) =>
          -- line 597
          if c.isset "show-claims" || c.isset "show-properties" then
            (.success, evs ++ [.artifact .ShowProperties])
          -- line 604
          else if set_properties c gm then (.set_properties_failed, evs)
          -- lines 607-625: all_properties_verifiert over a symex-only checker
          else if o.get_bool_option "program-only" || o.get_bool_option "show-vcc" then
            (.success, evs ++ [.artifact .ProgramOnly])
          -- lines 627-644: stop_on_fail_verifiert exporting the formula
          else if o.get_bool_option "dimacs" || o.get_option "outfile" ≠ "" then
            (.success, evs ++ [.artifact .FormulaExport])
          -- lines 646-657: coverage verifier plus test-input generator
          else if o.is_set "cover" then
            (.success, evs ++ [.ran_coverage])
          else
            -- lines 659-718
            match select_verifier o with
            | some s => (result_to_exit_code env.verification_result,
                evs ++ [.ran_strategy s])
            | none => (.internal_error, evs)

/-- The spec's `ModeSelector` (section 4.2): the priority-ordered map from a
configuration to the session mode, in the order in which
`doit`/`get_goto_program` test the conditions. -/
def select_mode (c : cmdlinet) (o : optionst) : session_modet :=
  if c.isset "version" then .ShowVersion
  else if c.isset "test-preprocessor" then .PreprocessorTest
  else if c.isset "preprocess" then .Preprocess
  else if c.isset "show-parse-tree" then .ShowParseTree
  else if c.isset "show-symbol-table" then .ShowSymbolTable
  else if c.isset "show-loops" then .ShowLoops
  else if c.isset "show-goto-functions" || c.isset "list-goto-functions" then .ShowGotoFunctions
  else if c.isset "show-claims" || c.isset "show-properties" then .ShowProperties
  else if o.get_bool_option "program-only" || o.get_bool_option "show-vcc" then .ProgramOnly
  else if o.get_bool_option "dimacs" || o.get_option "outfile" ≠ "" then .FormulaExport
  else if o.is_set "cover" then .Coverage
  else .StandardVerify

/-! ## Derived descriptions of the pipeline runs -/

/-- Whether an `Except` is an error. -/
def except_failed : Except ε α → Bool
  | .error _ => true
  | .ok _ => false

/-- The events of the stages executed before property labeling, as a
function of the configuration (stages 1-16). -/
def pre_label_events (o : optionst) : List eventt :=
  [.stage "remove_asm", .stage "link_to_library_cpp", .stage "link_to_library_c"]
  ++ (if o.get_bool_option "string-abstraction" then [.stage "string_instrumentation"] else [])
  ++ [.stage "remove_function_pointers", .stage "mm_io", .stage "instrument_preconditions",
      .stage "remove_returns", .stage "remove_vector", .stage "remove_complex",
      .stage "rewrite_union", .stage "goto_check", .stage "adjust_float_expressions"]
  ++ (if o.get_bool_option "nondet-static" then [.stage "nondet_static"] else [])
  ++ (if o.get_bool_option "string-abstraction" then [.stage "string_abstraction"] else [])
  ++ [.stage "add_failed_symbols", .stage "update_goto_functions", .stage "compute_loop_numbers"]
  ++ (if o.get_bool_option "drop-unused-functions" then [.stage "remove_unused_functions"] else [])
  ++ [.stage "remove_skip"]
  ++ (if o.is_set "cover" then [.stage "instrument_cover_goals"] else [])

/-- The events of the stages executed after property labeling, as a
function of the configuration (stages 18-20). -/
def post_label_events (o : optionst) : List eventt :=
  (if o.get_bool_option "reachability-slice-fb" then [.stage "reachability_slicer_fb"] else [])
  ++ (if o.get_bool_option "reachability-slice" then [.stage "reachability_slicer"] else [])
  ++ (if o.get_bool_option "full-slice" then [.stage "full_slicer"] else [])
  ++ [.stage "remove_skip"]

/-- The program model immediately after the property-labeling stage of a
pipeline run (the point at which every property has received its stable
identifier, before any slicing). -/
def labeled_model (o : optionst) (env : environmentt) (gm0 : goto_modelt) : goto_modelt :=
  match pipeline_up_to_cover o env gm0 with
  | .ok st => label_properties st.1
  | .error _ => ⟨[]⟩

/-- The options produced by a successfully validated command line (used to
evaluate the theorems at concrete inputs). -/
def opts_of (c : cmdlinet) : optionst :=
  match get_command_line_options c with
  | .ok o => o
  | .error _ => empty_optionst

/-- The four pairs of mutually exclusive options rejected by
`get_command_line_options`, each in the order in which the error message
names them. -/
def exclusive_pairs : List (String × String) :=
  [("cover", "unwinding-assertions"),
   ("no-array-field-sensitivity", "max-field-sensitivity-array-size"),
   ("partial-loops", "unwinding-assertions"),
   ("reachability-slice", "reachability-slice-fb")]

/-! ## Concrete inputs used to evaluate the theorems -/

/-- A benign external environment: every external call succeeds, the built
model carries one user assertion and the generic checks insert one bounds
check; the verifier finds a counterexample. -/
def ex_env : environmentt where
  preprocessor_test_fails := false
  preprocess_ok := true
  parse_tree_ok := true
  is_goto_binary := false
  build_model := ⟨[⟨none, "user_assertion_1"⟩]⟩
  precondition_props := []
  check_props := ["bounds_check_1"]
  nondet_props := []
  cover_props := []
  cover_instrumentation_fails := false
  reach_keep := fun _ _ _ => true
  full_keep := fun _ _ => true
  verification_result := .FAIL

/-- The same environment with a failing coverage instrumentation (unknown
criterion). -/
def ex_env_cover_fail : environmentt :=
  { ex_env with cover_instrumentation_fails := true }

/-- A well-formed command line with one source file and no flags. -/
def base_cmdline : cmdlinet where
  flags := []
  values := fun _ => ""
  valuelists := fun _ => []
  args := ["main.c"]
  ui_plain := true
  config_set_fails := false

/-- `cbmc --cover location main.c`. -/
def cover_cmdline : cmdlinet :=
  { base_cmdline with flags := ["cover"], valuelists := fun _ => ["location"] }

/-- `cbmc --dimacs main.c`. -/
def dimacs_cmdline : cmdlinet :=
  { base_cmdline with flags := ["dimacs"] }

/-- `cbmc --smt2 --outfile formula.smt2 main.c`. -/
def smt2_out_cmdline : cmdlinet :=
  { base_cmdline with
    flags := ["smt2", "outfile"],
    values := fun n => if n = "outfile" then "formula.smt2" else "" }

/-- `cbmc --smt2 main.c`. -/
def smt2_plain_cmdline : cmdlinet :=
  { base_cmdline with flags := ["smt2"] }

/-- `cbmc --graphml-witness w.graphml main.c`. -/
def graphml_cmdline : cmdlinet :=
  { base_cmdline with
    flags := ["graphml-witness"],
    values := fun n => if n = "graphml-witness" then "w.graphml" else "" }

/-- `cbmc --cover location --unwinding-assertions main.c`: both members of a
mutually exclusive pair. -/
def conflict_cmdline : cmdlinet :=
  { base_cmdline with flags := ["cover", "unwinding-assertions"] }

/-- `cbmc --show-loops main.c`. -/
def loops_cmdline : cmdlinet :=
  { base_cmdline with flags := ["show-loops"] }

/-- A validated configuration with single-path exploration and fault
localization both requested (reachable, e.g., from
`cbmc --paths lifo --localize-faults main.c`). -/
def c1_options : optionst :=
  let o := empty_optionst.set_option' "paths" (.ob true)
  o.set_option' "localize-faults" (.ob true)

/-- A validated configuration with stop-on-fail, multi-path exploration and
fault localization. -/
def c3_options : optionst :=
  let o := empty_optionst.set_option' "stop-on-fail" (.ob true)
  o.set_option' "localize-faults" (.ob true)

/-- A configuration requesting a plain reachability slice. -/
def c5_options : optionst :=
  empty_optionst.set_option' "reachability-slice" (.ob true)

/-- A freshly built model with one user assertion. -/
def c5_gm0 : goto_modelt := ⟨[⟨none, "user_assertion_1"⟩]⟩

/-- The model returned by the pipeline run of `c5_options` on `c5_gm0`. -/
def c5_gm' : goto_modelt :=
  match process_goto_program c5_options ex_env c5_gm0 with
  | .ok st => st.1
  | .error _ => ⟨[]⟩

/-- The events of the pipeline run of `c5_options` on `c5_gm0`. -/
def c5_evs : List eventt :=
  match process_goto_program c5_options ex_env c5_gm0 with
  | .ok st => st.2
  | .error evs => evs

/-! # Theorems

First the generic lookup lemmas for the option map, then the theorems
settling the claims. -/

theorem optionst.set_option'_same (o : optionst) (n : String) (v : optionvalt) :
    (o.set_option' n v) n = some v := by
  simp [optionst.set_option']

theorem optionst.set_option'_other (o : optionst) (n : String) (v : optionvalt) (m : String)
    (h : m ≠ n) : (o.set_option' n v) m = o m := by
  simp [optionst.set_option', h]

theorem optionst.set_if_other (o : optionst) (b : Bool) (n : String) (v : optionvalt) (m : String)
    (h : m ≠ n) : (o.set_if b n v) m = o m := by
  unfold optionst.set_if
  cases b <;> simp [optionst.set_option'_other _ _ _ _ h]

theorem optionst.set_if_pos (o : optionst) (b : Bool) (n : String) (v : optionvalt)
    (h : b = true) : o.set_if b n v = o.set_option' n v := by
  simp [optionst.set_if, h]

theorem optionst.set_if_neg (o : optionst) (b : Bool) (n : String) (v : optionvalt)
    (h : b = false) : o.set_if b n v = o := by
  simp [optionst.set_if, h]

theorem and_eq_false_of_not (x y : Bool) (h : ¬(x = true ∧ y = true)) : (x && y) = false := by
  cases x <;> cases y <;> simp_all

/-- The final guard of `split_string` always yields a non-empty list. -/
theorem ite_empty_ne_nil (l : List (List Char)) :
    (if l = [] then ([[]] : List (List Char)) else l) ≠ [] := by
  split
  · simp
  · rename_i h
    exact h

/-- **C10**: for every input string, delimiter and flag combination on which
the preconditions hold, `split_string` returns a non-empty vector, and
splitting the empty string returns exactly one empty string, even when
`remove_empty` is set. -/
theorem claim_c10 (s : List Char) (delim : Char) (strip remove_empty : Bool)
    (r : List (List Char)) (h : split_string s delim strip remove_empty = some r) :
    r ≠ [] ∧ (s = [] → r = [[]]) := by
  unfold split_string at h
  split at h
  · exact absurd h (by simp)
  · split at h
    · injection h with h
      subst h
      exact ⟨by simp, fun _ => rfl⟩
    · rename_i hs
      injection h with h
      subst h
      exact ⟨ite_empty_ne_nil _, fun hs2 => absurd hs2 hs⟩

theorem claim_c10_witness :
    split_string [] ',' false true = some [[]] ∧ ([[]] : List (List Char)) ≠ [] :=
  ⟨by decide, (claim_c10 [] ',' false true [[]] (by decide)).1⟩

/-- **C1, counterexample**: a validated configuration with single-path
exploration and fault localization both requested reaches strategy
selection and is not rejected: the cascade silently selects the
single-path strategy of the stop-on-fail axis and ignores
`localize-faults`. -/
theorem claim_c1_counterexample :
    c1_options.get_bool_option "paths" = true ∧
    c1_options.get_bool_option "localize-faults" = true ∧
    select_verifier c1_options = some strategy_idt.all_properties_single_trace := by
  refine ⟨by decide, by decide, by decide⟩

/-- **C1, amended**: on a configuration with `paths` and `localize-faults`
both enabled, the strategy cascade does not abort; it silently selects the
single-path strategy determined by `stop-on-fail` alone, ignoring fault
localization. -/
theorem claim_c1_amended (o : optionst)
    (hp : o.get_bool_option "paths" = true)
    (hl : o.get_bool_option "localize-faults" = true) :
    select_verifier o =
      some (if o.get_bool_option "stop-on-fail" then strategy_idt.stop_on_fail_single
            else strategy_idt.all_properties_single_trace) := by
  unfold select_verifier
  rcases hs : o.get_bool_option "stop-on-fail" <;> simp [hp, hl, hs]

theorem claim_c1_amended_witness :
    select_verifier c1_options = some strategy_idt.all_properties_single_trace := by
  rw [claim_c1_amended c1_options (by decide) (by decide)]
  decide

/-- **C3**: on every configuration whose strategy axes form one of the six
valid rows (i.e. excluding the unrepresentable single-path combination
with fault localization), the cascade of `doit` chooses exactly the
strategy given by the spec's six-row decision table over
`(stop_on_fail, path_exploration, fault_localization)`. -/
theorem claim_c3 (o : optionst)
    (h : ¬(o.get_bool_option "paths" = true ∧ o.get_bool_option "localize-faults" = true)) :
    select_verifier o =
      strategy_table (o.get_bool_option "stop-on-fail") (o.get_bool_option "paths")
        (o.get_bool_option "localize-faults") := by
  rcases hs : o.get_bool_option "stop-on-fail" <;>
    rcases hp : o.get_bool_option "paths" <;>
      rcases hl : o.get_bool_option "localize-faults" <;>
        simp_all [select_verifier, strategy_table]

theorem claim_c3_witness :
    select_verifier c3_options = strategy_table true false true :=
  claim_c3 c3_options (by decide)

/-- A successful `get_command_line_options` returns exactly the assembled
option map. -/
theorem gclo_ok (c : cmdlinet) (o : optionst) (h : get_command_line_options c = .ok o) :
    o = assembled_options c := by
  unfold get_command_line_options at h
  repeat' split at h
  all_goals try exact Except.noConfusion h
  exact ((Except.ok.injEq _ _).mp h).symm

/-- **C9**: a raw flag set with `graphml-witness` set yields a validated
configuration with both `stop-on-fail` and `trace` enabled. -/
theorem claim_c9 (c : cmdlinet) (o : optionst)
    (h : get_command_line_options c = .ok o)
    (hg : c.isset "graphml-witness" = true) :
    o.get_bool_option "stop-on-fail" = true ∧ o.get_bool_option "trace" = true := by
  rw [gclo_ok c o h]
  constructor <;>
    simp +decide [assembled_options, set_default_options, optionst.get_bool_option,
      optionst.set_if_other, optionst.set_option'_other,
      optionst.set_if_pos _ _ _ _ hg, optionst.set_option'_same]

theorem claim_c9_witness :
    (opts_of graphml_cmdline).get_bool_option "stop-on-fail" = true ∧
    (opts_of graphml_cmdline).get_bool_option "trace" = true :=
  claim_c9 graphml_cmdline (opts_of graphml_cmdline) (by rfl) (by decide)

/-- **C2, counterexample**: the raw flag set `{cover}` is validated
successfully, yet the resulting configuration does NOT have stop-on-fail
enabled: line 257 tests `stop-on-fail`, `dimacs` and `outfile`, not
`cover`. -/
theorem claim_c2_counterexample :
    cover_cmdline.isset "cover" = true ∧
    get_command_line_options cover_cmdline = .ok (opts_of cover_cmdline) ∧
    (opts_of cover_cmdline).get_bool_option "stop-on-fail" = false :=
  ⟨by decide, by rfl, by decide⟩

/-- **C2, amended**: a raw flag set with `dimacs` or an explicit output file
set yields a validated configuration with stop-on-fail enabled (`cover`,
contrary to the claim, forces nothing; `stop-on-fail` itself and
`graphml-witness` also force it). -/
theorem claim_c2_amended (c : cmdlinet) (o : optionst)
    (h : get_command_line_options c = .ok o)
    (hd : c.isset "dimacs" = true ∨ c.isset "outfile" = true) :
    o.get_bool_option "stop-on-fail" = true := by
  rw [gclo_ok c o h]
  rcases hg : c.isset "graphml-witness" <;>
    rcases hd with hd | hd <;>
      simp +decide [assembled_options, set_default_options, optionst.get_bool_option,
        optionst.set_if_other, optionst.set_option'_other, optionst.set_if_pos,
        optionst.set_if_neg, optionst.set_option'_same, hd, hg]

theorem claim_c2_amended_witness :
    (opts_of dimacs_cmdline).get_bool_option "stop-on-fail" = true :=
  claim_c2_amended dimacs_cmdline (opts_of dimacs_cmdline) (by rfl) (Or.inl (by decide))

/-- **C8**: a raw flag set requesting SMT2 encoding with none of the six
backend solver flags present yields a configuration selecting generic
standard-compliant SMT-LIB emission when an explicit output file is
requested, and the default solver (Z3) otherwise. -/
theorem claim_c8 (c : cmdlinet) (o : optionst)
    (h : get_command_line_options c = .ok o)
    (hsmt : c.isset "smt2" = true)
    (hb : c.isset "boolector" = false) (hcs : c.isset "cprover-smt2" = false)
    (hms : c.isset "mathsat" = false) (hcv : c.isset "cvc4" = false)
    (hy : c.isset "yices" = false) (hz : c.isset "z3" = false) :
    (c.isset "outfile" = true → o.get_bool_option "generic" = true) ∧
    (c.isset "outfile" = false → o.get_bool_option "z3" = true) := by
  rw [gclo_ok c o h]
  constructor <;> intro hout <;>
    simp +decide [assembled_options, set_default_options, optionst.get_bool_option,
      optionst.set_if_other, optionst.set_option'_other, optionst.set_if_pos,
      optionst.set_if_neg, optionst.set_option'_same, hsmt, hb, hcs, hms, hcv, hy, hz, hout]

theorem claim_c8_witness :
    (opts_of smt2_out_cmdline).get_bool_option "generic" = true ∧
    (opts_of smt2_plain_cmdline).get_bool_option "z3" = true :=
  ⟨(claim_c8 smt2_out_cmdline (opts_of smt2_out_cmdline) (by rfl) (by decide) (by decide)
      (by decide) (by decide) (by decide) (by decide) (by decide)).1 (by decide),
   (claim_c8 smt2_plain_cmdline (opts_of smt2_plain_cmdline) (by rfl) (by decide) (by decide)
      (by decide) (by decide) (by decide) (by decide) (by decide)).2 (by decide)⟩

/-- **C4**: a raw flag set (passing the external `config.set` check)
containing both members of any of the four mutually exclusive pairs, in
either order, fails validation with an error naming a conflicting pair of
set options, and the session aborts with a usage error before any program
representation is built (the returned event list is empty). -/
theorem claim_c4 (c : cmdlinet) (env : environmentt) (a b : String)
    (hset : c.config_set_fails = false)
    (hpair : (a, b) ∈ exclusive_pairs ∨ (b, a) ∈ exclusive_pairs)
    (ha : c.isset a = true) (hb : c.isset b = true) :
    (∃ a' b', get_command_line_options c = .error (.usage_error (.conflict a' b')) ∧
      (a', b') ∈ exclusive_pairs ∧ c.isset a' = true ∧ c.isset b' = true) ∧
    (c.isset "version" = false → doit c env = (.usage_error, [])) := by
  have main : ∃ a' b',
      get_command_line_options c = .error (.usage_error (.conflict a' b')) ∧
      (a', b') ∈ exclusive_pairs ∧ c.isset a' = true ∧ c.isset b' = true := by
    by_cases h1 : c.isset "cover" = true ∧ c.isset "unwinding-assertions" = true
    · exact ⟨"cover", "unwinding-assertions",
        by simp [get_command_line_options, hset, h1.1, h1.2],
        by simp [exclusive_pairs], h1.1, h1.2⟩
    · have h1' := and_eq_false_of_not _ _ h1
      by_cases h2 : c.isset "no-array-field-sensitivity" = true ∧
          c.isset "max-field-sensitivity-array-size" = true
      · exact ⟨"no-array-field-sensitivity", "max-field-sensitivity-array-size",
          by simp [get_command_line_options, hset, h1', h2.1, h2.2],
          by simp [exclusive_pairs], h2.1, h2.2⟩
      · have h2' := and_eq_false_of_not _ _ h2
        by_cases h3 : c.isset "partial-loops" = true ∧ c.isset "unwinding-assertions" = true
        · have hcov : c.isset "cover" = false := by
            cases hcv : c.isset "cover"
            · rfl
            · exact absurd ⟨hcv, h3.2⟩ h1
          exact ⟨"partial-loops", "unwinding-assertions",
            by simp [get_command_line_options, hset, hcov, h2', h3.1, h3.2],
            by simp [exclusive_pairs], h3.1, h3.2⟩
        · have h3' := and_eq_false_of_not _ _ h3
          by_cases h4 : c.isset "reachability-slice" = true ∧
              c.isset "reachability-slice-fb" = true
          · exact ⟨"reachability-slice", "reachability-slice-fb",
              by simp [get_command_line_options, hset, h1', h2', h3', h4.1, h4.2],
              by simp [exclusive_pairs], h4.1, h4.2⟩
          · exfalso
            simp only [exclusive_pairs, List.mem_cons, List.mem_singleton,
              List.not_mem_nil, or_false, Prod.mk.injEq] at hpair
            rcases hpair with (⟨rfl, rfl⟩ | ⟨rfl, rfl⟩ | ⟨rfl, rfl⟩ | ⟨rfl, rfl⟩) |
              (⟨rfl, rfl⟩ | ⟨rfl, rfl⟩ | ⟨rfl, rfl⟩ | ⟨rfl, rfl⟩)
            · exact h1 ⟨ha, hb⟩
            · exact h2 ⟨ha, hb⟩
            · exact h3 ⟨ha, hb⟩
            · exact h4 ⟨ha, hb⟩
            · exact h1 ⟨hb, ha⟩
            · exact h2 ⟨hb, ha⟩
            · exact h3 ⟨hb, ha⟩
            · exact h4 ⟨hb, ha⟩
  refine ⟨main, fun hv => ?_⟩
  obtain ⟨a', b', e, -, -, -⟩ := main
  simp [doit, hv, e]

theorem claim_c4_witness :
    doit conflict_cmdline ex_env = (exit_codet.usage_error, []) :=
  (claim_c4 conflict_cmdline ex_env "cover" "unwinding-assertions" rfl
    (Or.inl (by decide)) (by decide) (by decide)).2 (by decide)

/-! ## Pipeline characterization lemmas -/

/-- A successful run of the pipeline prefix produces exactly the
pre-labeling events, and implies that coverage instrumentation did not
fail. -/
theorem up_to_cover_ok_events (o : optionst) (env : environmentt) (gm0 : goto_modelt)
    (st : goto_modelt × List eventt) (h : pipeline_up_to_cover o env gm0 = .ok st) :
    st.2 = pre_label_events o ∧
      (o.is_set "cover" && env.cover_instrumentation_fails) = false := by
  unfold pipeline_up_to_cover at h
  rcases hsa : o.get_bool_option "string-abstraction" <;>
  rcases hns : o.get_bool_option "nondet-static" <;>
  rcases hdu : o.get_bool_option "drop-unused-functions" <;>
  rcases hcv : o.is_set "cover" <;>
  rcases hcf : env.cover_instrumentation_fails <;>
  simp only [hsa, hns, hdu, hcv, hcf, run_stage_if, run_stage, Bool.false_eq_true,
    if_true, if_false, ite_true, ite_false, Bool.true_eq_false] at h <;>
  first
    | exact Except.noConfusion h
    | (have hst := ((Except.ok.injEq _ _).mp h).symm
       rw [hst]
       simp [pre_label_events, hsa, hns, hdu, hcv, hcf])

/-- A failing run of the pipeline prefix fails at coverage instrumentation,
after having run exactly the pre-labeling stages. -/
theorem up_to_cover_error_events (o : optionst) (env : environmentt) (gm0 : goto_modelt)
    (evs : List eventt) (h : pipeline_up_to_cover o env gm0 = .error evs) :
    evs = pre_label_events o ∧ o.is_set "cover" = true ∧
      env.cover_instrumentation_fails = true := by
  unfold pipeline_up_to_cover at h
  rcases hsa : o.get_bool_option "string-abstraction" <;>
  rcases hns : o.get_bool_option "nondet-static" <;>
  rcases hdu : o.get_bool_option "drop-unused-functions" <;>
  rcases hcv : o.is_set "cover" <;>
  rcases hcf : env.cover_instrumentation_fails <;>
  simp only [hsa, hns, hdu, hcv, hcf, run_stage_if, run_stage, Bool.false_eq_true,
    if_true, if_false, ite_true, ite_false, Bool.true_eq_false] at h <;>
  first
    | exact Except.noConfusion h
    | (have hevs := ((Except.error.injEq _ _).mp h).symm
       rw [hevs]
       simp [pre_label_events, hsa, hns, hdu, hcv, hcf])

/-- The post-labeling stages append exactly the post-labeling events. -/
theorem after_label_events (o : optionst) (env : environmentt)
    (st : goto_modelt × List eventt) :
    (pipeline_after_label o env st).2 = st.2 ++ post_label_events o := by
  rcases h1 : o.get_bool_option "reachability-slice-fb" <;>
  rcases h2 : o.get_bool_option "reachability-slice" <;>
  rcases h3 : o.get_bool_option "full-slice" <;>
    simp [pipeline_after_label, run_stage, run_stage_if, post_label_events, h1, h2, h3]

/-- The post-labeling stages only remove properties: every property of the
final model occurs, unchanged, in the model at the labeling point. -/
theorem after_label_props_subset (o : optionst) (env : environmentt)
    (st : goto_modelt × List eventt) (p : propertyt)
    (hp : p ∈ (pipeline_after_label o env st).1.props) : p ∈ st.1.props := by
  rcases h1 : o.get_bool_option "reachability-slice-fb" <;>
  rcases h2 : o.get_bool_option "reachability-slice" <;>
  rcases h3 : o.get_bool_option "full-slice" <;>
  rcases h4 : o.is_set "property" <;>
    simp_all [pipeline_after_label, run_stage, run_stage_if, remove_skip,
      reachability_slicer, property_slicer, full_slicer, List.mem_filter]

/-- Every property of a labeled model carries an identifier. -/
theorem label_props_ident (i : Nat) (l : List propertyt) (p : propertyt)
    (hp : p ∈ label_props i l) : p.ident.isSome := by
  induction l generalizing i with
  | nil => cases hp
  | cons q l ih =>
    rw [label_props] at hp
    rcases List.mem_cons.mp hp with rfl | hp
    · rfl
    · exact ih _ hp

/-- A failing `process_goto_program` is a failing pipeline prefix. -/
theorem process_error_events (o : optionst) (env : environmentt) (gm0 : goto_modelt)
    (evs : List eventt) (h : process_goto_program o env gm0 = .error evs) :
    pipeline_up_to_cover o env gm0 = .error evs := by
  unfold process_goto_program at h
  rcases hup : pipeline_up_to_cover o env gm0 with e | st <;> rw [hup] at h
  · exact h
  · exact Except.noConfusion h

/-- `process_goto_program` fails exactly when coverage instrumentation is
requested and fails. -/
theorem process_failed_iff (o : optionst) (env : environmentt) (gm0 : goto_modelt) :
    except_failed (process_goto_program o env gm0) = true ↔
      o.is_set "cover" = true ∧ env.cover_instrumentation_fails = true := by
  constructor
  · intro hf
    rcases hres : process_goto_program o env gm0 with evs | st
    · obtain ⟨-, h1, h2⟩ :=
        up_to_cover_error_events o env gm0 evs (process_error_events o env gm0 evs hres)
      exact ⟨h1, h2⟩
    · rw [hres] at hf
      simp [except_failed] at hf
  · rintro ⟨h1, h2⟩
    rcases hup : pipeline_up_to_cover o env gm0 with evs | st
    · unfold process_goto_program
      rw [hup]
      rfl
    · obtain ⟨-, hne⟩ := up_to_cover_ok_events o env gm0 st hup
      rw [h1, h2] at hne
      exact absurd hne (by decide)

/-- A successful `process_goto_program` performs the pre-labeling stages,
then property labeling, then the post-labeling stages. -/
theorem process_ok_events (o : optionst) (env : environmentt) (gm0 gm' : goto_modelt)
    (evs : List eventt) (h : process_goto_program o env gm0 = .ok (gm', evs)) :
    evs = pre_label_events o ++ eventt.stage "label_properties" :: post_label_events o := by
  unfold process_goto_program at h
  rcases hup : pipeline_up_to_cover o env gm0 with evs0 | st
  all_goals rw [hup] at h
  · exact Except.noConfusion h
  have hpair := (Except.ok.injEq _ _).mp h
  have hpre := (up_to_cover_ok_events o env gm0 st hup).1
  have hevs := congrArg Prod.snd hpair
  rw [after_label_events] at hevs
  simp only [run_stage] at hevs
  rw [← hevs, hpre]
  simp

theorem pre_label_no_artifact (o : optionst) (m : session_modet) :
    eventt.artifact m ∉ pre_label_events o := by
  rcases hsa : o.get_bool_option "string-abstraction" <;>
  rcases hns : o.get_bool_option "nondet-static" <;>
  rcases hdu : o.get_bool_option "drop-unused-functions" <;>
  rcases hcv : o.is_set "cover" <;>
    simp [pre_label_events, hsa, hns, hdu, hcv]

theorem pre_label_no_strategy (o : optionst) (s : strategy_idt) :
    eventt.ran_strategy s ∉ pre_label_events o := by
  rcases hsa : o.get_bool_option "string-abstraction" <;>
  rcases hns : o.get_bool_option "nondet-static" <;>
  rcases hdu : o.get_bool_option "drop-unused-functions" <;>
  rcases hcv : o.is_set "cover" <;>
    simp [pre_label_events, hsa, hns, hdu, hcv]

theorem pre_label_no_coverage (o : optionst) :
    eventt.ran_coverage ∉ pre_label_events o := by
  rcases hsa : o.get_bool_option "string-abstraction" <;>
  rcases hns : o.get_bool_option "nondet-static" <;>
  rcases hdu : o.get_bool_option "drop-unused-functions" <;>
  rcases hcv : o.is_set "cover" <;>
    simp [pre_label_events, hsa, hns, hdu, hcv]

theorem post_label_no_artifact (o : optionst) (m : session_modet) :
    eventt.artifact m ∉ post_label_events o := by
  rcases h1 : o.get_bool_option "reachability-slice-fb" <;>
  rcases h2 : o.get_bool_option "reachability-slice" <;>
  rcases h3 : o.get_bool_option "full-slice" <;>
    simp [post_label_events, h1, h2, h3]

theorem post_label_no_strategy (o : optionst) (s : strategy_idt) :
    eventt.ran_strategy s ∉ post_label_events o := by
  rcases h1 : o.get_bool_option "reachability-slice-fb" <;>
  rcases h2 : o.get_bool_option "reachability-slice" <;>
  rcases h3 : o.get_bool_option "full-slice" <;>
    simp [post_label_events, h1, h2, h3]

theorem post_label_no_coverage (o : optionst) :
    eventt.ran_coverage ∉ post_label_events o := by
  rcases h1 : o.get_bool_option "reachability-slice-fb" <;>
  rcases h2 : o.get_bool_option "reachability-slice" <;>
  rcases h3 : o.get_bool_option "full-slice" <;>
    simp [post_label_events, h1, h2, h3]

/-- The events of a successful pipeline run are stage events only: no
artifact, no coverage run, no strategy run. -/
theorem process_ok_no_misc (o : optionst) (env : environmentt) (gm0 gm' : goto_modelt)
    (evs : List eventt) (h : process_goto_program o env gm0 = .ok (gm', evs)) :
    (∀ m', eventt.artifact m' ∉ evs) ∧ (∀ s, eventt.ran_strategy s ∉ evs) ∧
      eventt.ran_coverage ∉ evs := by
  rw [process_ok_events o env gm0 gm' evs h]
  refine ⟨fun m' hm' => ?_, fun s hs => ?_, fun hc => ?_⟩
  · rcases List.mem_append.mp hm' with h' | h'
    · exact pre_label_no_artifact o m' h'
    · rcases List.mem_cons.mp h' with h'' | h''
      · exact eventt.noConfusion h''
      · exact post_label_no_artifact o m' h''
  · rcases List.mem_append.mp hs with h' | h'
    · exact pre_label_no_strategy o s h'
    · rcases List.mem_cons.mp h' with h'' | h''
      · exact eventt.noConfusion h''
      · exact post_label_no_strategy o s h''
  · rcases List.mem_append.mp hc with h' | h'
    · exact pre_label_no_coverage o h'
    · rcases List.mem_cons.mp h' with h'' | h''
      · exact eventt.noConfusion h''
      · exact post_label_no_coverage o h''

/-- The events of a failing pipeline run are stage events only. -/
theorem process_error_no_misc (o : optionst) (env : environmentt) (gm0 : goto_modelt)
    (evs : List eventt) (h : process_goto_program o env gm0 = .error evs) :
    (∀ m', eventt.artifact m' ∉ evs) ∧ (∀ s, eventt.ran_strategy s ∉ evs) ∧
      eventt.ran_coverage ∉ evs := by
  obtain ⟨hevs, -, -⟩ :=
    up_to_cover_error_events o env gm0 evs (process_error_events o env gm0 evs h)
  subst hevs
  exact ⟨fun m' => pre_label_no_artifact o m', fun s => pre_label_no_strategy o s,
    pre_label_no_coverage o⟩

/-- Conclusions of C7 for an event list ending in the mode's artifact. -/
theorem tail_facts (l : List eventt) (m : session_modet)
    (hart : ∀ m', eventt.artifact m' ∉ l)
    (hstr : ∀ s, eventt.ran_strategy s ∉ l)
    (hcov : eventt.ran_coverage ∉ l) :
    (∀ s, eventt.ran_strategy s ∉ l ++ [eventt.artifact m])
    ∧ eventt.ran_coverage ∉ l ++ [eventt.artifact m]
    ∧ (∀ m', eventt.artifact m' ∈ l ++ [eventt.artifact m] →
        m' = m ∧ (l ++ [eventt.artifact m]).getLast? = some (eventt.artifact m')) := by
  refine ⟨fun s hs => ?_, fun hc => ?_, fun m' hm' => ?_⟩
  · rcases List.mem_append.mp hs with h' | h'
    · exact hstr s h'
    · simp at h'
  · rcases List.mem_append.mp hc with h' | h'
    · exact hcov h'
    · simp at h'
  · rcases List.mem_append.mp hm' with h' | h'
    · exact absurd h' (hart m')
    · have hmm : m' = m := by simpa using h'
      subst hmm
      exact ⟨rfl, List.getLast?_concat _⟩

/-- Conclusions of C7 for an event list with no artifact at all. -/
theorem no_artifact_facts (l : List eventt) (mode : session_modet)
    (hart : ∀ m', eventt.artifact m' ∉ l)
    (hstr : ∀ s, eventt.ran_strategy s ∉ l)
    (hcov : eventt.ran_coverage ∉ l) :
    (∀ s, eventt.ran_strategy s ∉ l) ∧ eventt.ran_coverage ∉ l ∧
    (∀ m', eventt.artifact m' ∈ l →
      m' = mode ∧ l.getLast? = some (eventt.artifact m')) :=
  ⟨hstr, hcov, fun m' hm' => absurd hm' (hart m')⟩

/-- **C5**: in every successful pipeline run the property-labeling stage
executes exactly once, after every stage that can introduce a new property
(generic safety checks, nondet-static initialization, coverage
instrumentation, which occur only before it) and strictly before the
reachability-slicing and full-slicing stages (which occur only after it);
every property is labeled at the labeling point, and every property of the
final model occurs, with the identifier it received at the labeling point,
in the labeled model: slicing removes properties but never changes an
assigned identifier. -/
theorem claim_c5 (o : optionst) (env : environmentt) (gm0 gm' : goto_modelt)
    (evs : List eventt) (h : process_goto_program o env gm0 = .ok (gm', evs)) :
    evs = pre_label_events o ++ eventt.stage "label_properties" :: post_label_events o
    ∧ (eventt.stage "goto_check" ∉ post_label_events o
       ∧ eventt.stage "nondet_static" ∉ post_label_events o
       ∧ eventt.stage "instrument_cover_goals" ∉ post_label_events o
       ∧ eventt.stage "label_properties" ∉ post_label_events o)
    ∧ (eventt.stage "reachability_slicer_fb" ∉ pre_label_events o
       ∧ eventt.stage "reachability_slicer" ∉ pre_label_events o
       ∧ eventt.stage "full_slicer" ∉ pre_label_events o
       ∧ eventt.stage "label_properties" ∉ pre_label_events o)
    ∧ (∀ p ∈ (labeled_model o env gm0).props, p.ident.isSome = true)
    ∧ (∀ p ∈ gm'.props, p ∈ (labeled_model o env gm0).props) := by
  unfold process_goto_program at h
  rcases hup : pipeline_up_to_cover o env gm0 with evs0 | st
  all_goals rw [hup] at h
  · exact Except.noConfusion h
  have hpair := (Except.ok.injEq _ _).mp h
  have hpre := (up_to_cover_ok_events o env gm0 st hup).1
  have hlm : labeled_model o env gm0 = label_properties st.1 := by
    unfold labeled_model
    rw [hup]
  refine ⟨?_, ?_, ?_, ?_, ?_⟩
  · have hevs := congrArg Prod.snd hpair
    rw [after_label_events] at hevs
    simp only [run_stage] at hevs
    rw [← hevs, hpre]
    simp
  · refine ⟨?_, ?_, ?_, ?_⟩ <;>
    · rcases h1 : o.get_bool_option "reachability-slice-fb" <;>
      rcases h2 : o.get_bool_option "reachability-slice" <;>
      rcases h3 : o.get_bool_option "full-slice" <;>
        simp [post_label_events, h1, h2, h3]
  · refine ⟨?_, ?_, ?_, ?_⟩ <;>
    · rcases hsa : o.get_bool_option "string-abstraction" <;>
      rcases hns : o.get_bool_option "nondet-static" <;>
      rcases hdu : o.get_bool_option "drop-unused-functions" <;>
      rcases hcv : o.is_set "cover" <;>
        simp [pre_label_events, hsa, hns, hdu, hcv]
  · rw [hlm]
    intro p hp
    exact label_props_ident 0 st.1.props p hp
  · intro p hp
    have hgm : (pipeline_after_label o env
        (run_stage "label_properties" label_properties st)).1 = gm' := by
      rw [hpair]
    rw [← hgm] at hp
    have hsub := after_label_props_subset o env _ p hp
    simp only [run_stage] at hsub
    rw [hlm]
    exact hsub

theorem claim_c5_witness :
    c5_evs = pre_label_events c5_options ++
      eventt.stage "label_properties" :: post_label_events c5_options :=
  (claim_c5 c5_options ex_env c5_gm0 c5_gm' c5_evs (by rfl)).1

/-- **C6**: for every well-formed representation and validated
configuration, the coverage-instrumentation stage is the only pipeline
stage that can fail (the pipeline fails exactly when coverage
instrumentation is requested and fails); when it fails, the failing stage
is the last event — neither property labeling nor any slicing stage runs —
and the session terminates with the internal-error exit status. -/
theorem claim_c6 (c : cmdlinet) (o : optionst) (env : environmentt)
    (h : get_command_line_options c = .ok o)
    (hv : c.isset "version" = false) (hmod : c.isset "module" = false)
    (hgen : c.isset "gen-interface" = false) (htp : c.isset "test-preprocessor" = false)
    (hpre : c.isset "preprocess" = false) (hpt : c.isset "show-parse-tree" = false)
    (hargs : c.args ≠ []) (hsym : c.isset "show-symbol-table" = false) :
    (except_failed (process_goto_program o env env.build_model) = true ↔
      o.is_set "cover" = true ∧ env.cover_instrumentation_fails = true)
    ∧ (∀ evs, process_goto_program o env env.build_model = .error evs →
        evs = pre_label_events o
        ∧ evs.getLast? = some (.stage "instrument_cover_goals")
        ∧ eventt.stage "label_properties" ∉ evs
        ∧ eventt.stage "reachability_slicer_fb" ∉ evs
        ∧ eventt.stage "reachability_slicer" ∉ evs
        ∧ eventt.stage "full_slicer" ∉ evs
        ∧ (doit c env).1 = exit_codet.internal_error) := by
  refine ⟨process_failed_iff o env env.build_model, fun evs herr => ?_⟩
  obtain ⟨hevs, hcv, -⟩ :=
    up_to_cover_error_events o env env.build_model evs
      (process_error_events o env env.build_model evs herr)
  subst hevs
  have hlists : (pre_label_events o).getLast? = some (.stage "instrument_cover_goals")
      ∧ eventt.stage "label_properties" ∉ pre_label_events o
      ∧ eventt.stage "reachability_slicer_fb" ∉ pre_label_events o
      ∧ eventt.stage "reachability_slicer" ∉ pre_label_events o
      ∧ eventt.stage "full_slicer" ∉ pre_label_events o := by
    rcases hsa : o.get_bool_option "string-abstraction" <;>
    rcases hns : o.get_bool_option "nondet-static" <;>
    rcases hdu : o.get_bool_option "drop-unused-functions" <;>
    simp only [pre_label_events, hsa, hns, hdu, hcv, Bool.false_eq_true,
      if_true, if_false, ite_true, ite_false] <;> decide
  refine ⟨rfl, hlists.1, hlists.2.1, hlists.2.2.1, hlists.2.2.2.1, hlists.2.2.2.2, ?_⟩
  simp [doit, hv, h, hmod, hgen, htp, hpre, hpt, get_goto_program, hargs, hsym, herr]

theorem claim_c6_witness :
    (doit cover_cmdline ex_env_cover_fail).1 = exit_codet.internal_error :=
  ((claim_c6 cover_cmdline (opts_of cover_cmdline) ex_env_cover_fail (by rfl)
      (by decide) (by decide) (by decide) (by decide) (by decide) (by decide)
      (by decide) (by decide)).2
    (pre_label_events (opts_of cover_cmdline)) (by rfl)).2.2.2.2.2.2

/-- **C7**: on a validated configuration whose session mode is neither
`StandardVerify` nor `Coverage` (version, preprocessor self-test,
preprocess, parse-tree dump, symbol-table dump, loop-id dump,
goto-function dump, property listing, program-only, formula/DIMACS
export), the session never runs a cascade-selected verification strategy
nor the coverage run, and when the mode's artifact is produced it is the
last event of the session: the session terminates immediately after
producing it. -/
theorem claim_c7 (c : cmdlinet) (o : optionst) (env : environmentt)
    (h : get_command_line_options c = .ok o)
    (hmod : c.isset "module" = false) (hgen : c.isset "gen-interface" = false)
    (hm1 : select_mode c o ≠ .StandardVerify)
    (hm2 : select_mode c o ≠ .Coverage) :
    (∀ s, eventt.ran_strategy s ∉ (doit c env).2)
    ∧ eventt.ran_coverage ∉ (doit c env).2
    ∧ (∀ m', eventt.artifact m' ∈ (doit c env).2 →
        m' = select_mode c o ∧ (doit c env).2.getLast? = some (eventt.artifact m')) := by
  cases hv : c.isset "version" with
  | true =>
    have hm : select_mode c o = .ShowVersion := by simp [select_mode, hv]
    have hd : (doit c env).2 = [] ++ [eventt.artifact .ShowVersion] := by
      simp [doit, hv]
    rw [hm, hd]
    exact tail_facts [] _ (by simp) (by simp) (by simp)
  | false =>
  cases htp : c.isset "test-preprocessor" with
  | true =>
    have hm : select_mode c o = .PreprocessorTest := by simp [select_mode, hv, htp]
    have hd : (doit c env).2 = [] ++ [eventt.artifact .PreprocessorTest] := by
      simp [doit, hv, h, hmod, hgen, htp]
    rw [hm, hd]
    exact tail_facts [] _ (by simp) (by simp) (by simp)
  | false =>
  cases hpp : c.isset "preprocess" with
  | true =>
    have hm : select_mode c o = .Preprocess := by simp [select_mode, hv, htp, hpp]
    cases hok : env.preprocess_ok with
    | true =>
      have hd : (doit c env).2 = [] ++ [eventt.artifact .Preprocess] := by
        simp [doit, hv, h, hmod, hgen, htp, hpp, hok]
      rw [hm, hd]
      exact tail_facts [] _ (by simp) (by simp) (by simp)
    | false =>
      have hd : (doit c env).2 = [] := by
        simp [doit, hv, h, hmod, hgen, htp, hpp, hok]
      rw [hd]
      exact no_artifact_facts [] _ (by simp) (by simp) (by simp)
  | false =>
  cases hpt : c.isset "show-parse-tree" with
  | true =>
    have hm : select_mode c o = .ShowParseTree := by simp [select_mode, hv, htp, hpp, hpt]
    cases hpt1 : (c.args.length ≠ 1 || env.is_goto_binary : Bool) with
    | true =>
      have hpt1' : ¬c.args.length = 1 ∨ env.is_goto_binary = true := by simpa using hpt1
      have hd : (doit c env).2 = [] := by
        rcases hpt1' with hd1 | hd1 <;>
          simp [doit, hv, h, hmod, hgen, htp, hpp, hpt, hd1]
      rw [hd]
      exact no_artifact_facts [] _ (by simp) (by simp) (by simp)
    | false =>
      rw [Bool.or_eq_false_iff] at hpt1
      have hlen : c.args.length = 1 := by simpa using hpt1.1
      cases hok : env.parse_tree_ok with
      | true =>
        have hd : (doit c env).2 = [] ++ [eventt.artifact .ShowParseTree] := by
          simp [doit, hv, h, hmod, hgen, htp, hpp, hpt, hlen, hpt1.2, hok]
        rw [hm, hd]
        exact tail_facts [] _ (by simp) (by simp) (by simp)
      | false =>
        have hd : (doit c env).2 = [] := by
          simp [doit, hv, h, hmod, hgen, htp, hpp, hpt, hlen, hpt1.2, hok]
        rw [hd]
        exact no_artifact_facts [] _ (by simp) (by simp) (by simp)
  | false =>
  by_cases hargs0 : c.args = []
  · have hd : (doit c env).2 = [] := by
      simp [doit, hv, h, hmod, hgen, htp, hpp, hpt, get_goto_program, hargs0]
    rw [hd]
    exact no_artifact_facts [] _ (by simp) (by simp) (by simp)
  cases hsym : c.isset "show-symbol-table" with
  | true =>
    have hm : select_mode c o = .ShowSymbolTable := by
      simp [select_mode, hv, htp, hpp, hpt, hsym]
    have hd : (doit c env).2 =
        [eventt.built_representation] ++ [eventt.artifact .ShowSymbolTable] := by
      simp [doit, hv, h, hmod, hgen, htp, hpp, hpt, get_goto_program, hargs0, hsym]
    rw [hm, hd]
    exact tail_facts [eventt.built_representation] _ (by simp) (by simp) (by simp)
  | false =>
  rcases hproc : process_goto_program o env env.build_model with pevs | stp
  · -- pipeline failure: internal error, no artifact, no strategy
    have hd : (doit c env).2 = eventt.built_representation :: pevs := by
      simp [doit, hv, h, hmod, hgen, htp, hpp, hpt, get_goto_program, hargs0, hsym, hproc]
    obtain ⟨hart, hstr, hcov⟩ := process_error_no_misc o env env.build_model pevs hproc
    rw [hd]
    exact no_artifact_facts _ _ (fun m' => by simp [hart m']) (fun s => by simp [hstr s])
      (by simp [hcov])
  obtain ⟨gm2, pevs⟩ := stp
  obtain ⟨hart, hstr, hcov⟩ := process_ok_no_misc o env env.build_model gm2 pevs hproc
  have hart' : ∀ m', eventt.artifact m' ∉ eventt.built_representation :: pevs :=
    fun m' => by simp [hart m']
  have hstr' : ∀ s, eventt.ran_strategy s ∉ eventt.built_representation :: pevs :=
    fun s => by simp [hstr s]
  have hcov' : eventt.ran_coverage ∉ eventt.built_representation :: pevs := by
    simp [hcov]
  cases hloo : c.isset "show-loops" with
  | true =>
    have hm : select_mode c o = .ShowLoops := by
      simp [select_mode, hv, htp, hpp, hpt, hsym, hloo]
    have hd : (doit c env).2 =
        (eventt.built_representation :: pevs) ++ [eventt.artifact .ShowLoops] := by
      simp [doit, hv, h, hmod, hgen, htp, hpp, hpt, get_goto_program, hargs0, hsym, hproc,
        hloo]
    rw [hm, hd]
    exact tail_facts _ _ hart' hstr' hcov'
  | false =>
  cases hgf : (c.isset "show-goto-functions" || c.isset "list-goto-functions" : Bool) with
  | true =>
    have hm : select_mode c o = .ShowGotoFunctions := by
      simp [select_mode, hv, htp, hpp, hpt, hsym, hloo, hgf]
    have hd : (doit c env).2 =
        (eventt.built_representation :: pevs) ++ [eventt.artifact .ShowGotoFunctions] := by
      simp [doit, hv, h, hmod, hgen, htp, hpp, hpt, get_goto_program, hargs0, hsym, hproc,
        hloo, hgf]
    rw [hm, hd]
    exact tail_facts _ _ hart' hstr' hcov'
  | false =>
  cases hcl : (c.isset "show-claims" || c.isset "show-properties" : Bool) with
  | true =>
    have hm : select_mode c o = .ShowProperties := by
      simp [select_mode, hv, htp, hpp, hpt, hsym, hloo, hgf, hcl]
    have hd : (doit c env).2 =
        (eventt.built_representation :: pevs) ++ [eventt.artifact .ShowProperties] := by
      simp [doit, hv, h, hmod, hgen, htp, hpp, hpt, get_goto_program, hargs0, hsym, hproc,
        hloo, hgf, hcl]
    rw [hm, hd]
    exact tail_facts _ _ hart' hstr' hcov'
  | false =>
  cases hpo : (o.get_bool_option "program-only" || o.get_bool_option "show-vcc" : Bool) with
  | true =>
    have hm : select_mode c o = .ProgramOnly := by
      simp [select_mode, hv, htp, hpp, hpt, hsym, hloo, hgf, hcl, hpo]
    have hd : (doit c env).2 =
        (eventt.built_representation :: pevs) ++ [eventt.artifact .ProgramOnly] := by
      simp [doit, hv, h, hmod, hgen, htp, hpp, hpt, get_goto_program, hargs0, hsym, hproc,
        hloo, hgf, hcl, set_properties, hpo]
    rw [hm, hd]
    exact tail_facts _ _ hart' hstr' hcov'
  | false =>
  cases hdo : (o.get_bool_option "dimacs" || o.get_option "outfile" ≠ "" : Bool) with
  | true =>
    have hdo' : o.get_bool_option "dimacs" = true ∨ ¬o.get_option "outfile" = "" := by
      simpa using hdo
    have hm : select_mode c o = .FormulaExport := by
      rcases hdo' with hd1 | hd1 <;>
        simp [select_mode, hv, htp, hpp, hpt, hsym, hloo, hgf, hcl, hpo, hd1]
    have hd : (doit c env).2 =
        (eventt.built_representation :: pevs) ++ [eventt.artifact .FormulaExport] := by
      rcases hdo' with hd1 | hd1 <;>
        simp [doit, hv, h, hmod, hgen, htp, hpp, hpt, get_goto_program, hargs0, hsym, hproc,
          hloo, hgf, hcl, set_properties, hpo, hd1]
    rw [hm, hd]
    exact tail_facts _ _ hart' hstr' hcov'
  | false =>
  rw [Bool.or_eq_false_iff] at hdo
  have hdo2 : o.get_option "outfile" = "" := by
    have hx := hdo.2
    simpa using hx
  cases hcover : o.is_set "cover" with
  | true =>
    have hm : select_mode c o = .Coverage := by
      simp [select_mode, hv, htp, hpp, hpt, hsym, hloo, hgf, hcl, hpo, hdo.1, hdo2, hcover]
    exact absurd hm hm2
  | false =>
    have hm : select_mode c o = .StandardVerify := by
      simp [select_mode, hv, htp, hpp, hpt, hsym, hloo, hgf, hcl, hpo, hdo.1, hdo2, hcover]
    exact absurd hm hm1

theorem claim_c7_witness :
    session_modet.ShowLoops = select_mode loops_cmdline (opts_of loops_cmdline) ∧
    (doit loops_cmdline ex_env).2.getLast? =
      some (eventt.artifact session_modet.ShowLoops) :=
  (claim_c7 loops_cmdline (opts_of loops_cmdline) ex_env (by rfl) (by decide) (by decide)
    (by decide) (by decide)).2.2 session_modet.ShowLoops (by decide)
